import Mathlib

/-!
Shallow embedding of `src/app.py`: a FastAPI service that, for a topic
string, fetches recent news headlines from the Currents API and calls the
OpenAI chat API three times (title, meta-description, article body),
returning the three texts as JSON.

External effects are modelled as explicit inputs:
* the outcome of the single outbound HTTP GET to the news API is a
  `NewsResponse` value passed to the pipeline;
* the text generator is an oracle mapping each prompt string to the outcome
  of one `openai.ChatCompletion.create` call.
The pipeline also returns a `RunLog` recording whether the news lookup ran
and which generation prompts were issued, in call order, so that claims
about call ordering and aborted stages are statable.
-/

/-- One article object from the news API JSON. `title = none` models an
article dict with no `"title"` key, so that `article["title"]` raises
`KeyError`. -/
structure Article where
  title : Option String
deriving DecidableEq, Repr

/-- The parsed JSON body of a news API response. `news = none` models a
body with no `"news"` key, in which case `response.json().get("news", [])`
yields the empty list. -/
structure NewsBody where
  news : Option (List Article)
deriving DecidableEq, Repr

/-- Outcome of `requests.get(url, params=params, timeout=10)` as observed
by `get_recent_news`: either a `requests.RequestException` is raised in
transit (carrying the exception text `msg`), or a response arrives with a
status code and a parsed JSON body. Malformed-JSON bodies are not
modelled; no claim depends on them. -/
inductive NewsResponse where
  | transportError (msg : String)
  | http (status : Nat) (body : NewsBody)
deriving DecidableEq, Repr

/-- An exception raised as `fastapi.HTTPException(status_code, detail)`. -/
structure HTTPException where
  status : Nat
  detail : String
deriving DecidableEq, Repr

/-- The fixed sentinel digest returned when no articles are found. -/
def noNewsSentinel : String := "Свежих новостей не найдено."

/-- `response.raise_for_status()` raises `requests.HTTPError` exactly for
4xx and 5xx status codes (`400 <= status_code < 600`); 2xx and 3xx pass. -/
def raiseForStatus (status : Nat) : Bool :=
  decide (400 ≤ status ∧ status < 600)

/-- The list comprehension `[article["title"] for article in articles]`:
`some` of the list of titles, or `none` when some article has no
`"title"` key (the comprehension raises `KeyError`, discarding all
titles). -/
def extractTitles : List Article → Option (List String)
  | [] => some []
  | a :: rest =>
    match a.title with
    | none => none
    | some t => (extractTitles rest).map (fun ts => t :: ts)

/-- `get_recent_news` from `src/app.py`, as a function of the news API
response: the digest string, or the `HTTPException` the function raises.
For a 4xx/5xx status the real detail embeds `str(HTTPError)`; only the
502 status matters to the claims, so the detail is modelled as the prefix
plus the status. The detail `"Ошибка при обработке новостей: 'title'"`
models the generic handler catching `KeyError('title')`, the only
processing failure representable in this embedding. -/
def get_recent_news (resp : NewsResponse) : Except HTTPException String :=
  match resp with
  | .transportError msg =>
      .error ⟨502, "Ошибка запроса к Currents API: " ++ msg⟩
  | .http status body =>
      if raiseForStatus status then
        .error ⟨502, "Ошибка запроса к Currents API: " ++ Nat.repr status⟩
      else
        let newsData := body.news.getD []
        if newsData.isEmpty then
          .ok noNewsSentinel
        else
          match extractTitles (newsData.take 5) with
          | some titles => .ok (String.intercalate "\n" titles)
          | none => .error ⟨500, "Ошибка при обработке новостей: 'title'"⟩

/-- One choice's message in an OpenAI chat completion response. -/
structure Message where
  content : String
deriving DecidableEq, Repr

/-- Outcome of one `openai.ChatCompletion.create` call: either the call
raises an exception (network failure, API error, ...), or it returns a
response carrying a list of choices. -/
inductive GenOutcome where
  | failure (msg : String)
  | completion (choices : List Message)
deriving DecidableEq, Repr

/-- The text generator as an oracle from the prompt sent to the outcome of
the call. The three call sites pass distinct fixed sampling options
(max_tokens, temperature, stop, penalties); the options do not influence
the control flow modelled here, so they are not carried. -/
def GenOracle : Type := String → GenOutcome

/-- Python's `str.strip()`: drop leading and trailing whitespace (the
whitespace set is approximated by `Char.isWhitespace`). -/
def pyStrip (s : String) : String :=
  ⟨((s.data.dropWhile Char.isWhitespace).reverse.dropWhile Char.isWhitespace).reverse⟩

/-- `response.choices[0].message.content.strip()` for one generation call:
the stripped text of the first choice, or the text of the exception raised
(`failure`, or the `IndexError` when `choices` is empty). -/
def completionText (oracle : GenOracle) (prompt : String) : Except String String :=
  match oracle prompt with
  | .failure msg => .error msg
  | .completion [] => .error "list index out of range"
  | .completion (c :: _) => .ok (pyStrip c.content)

/-- Leading literal of the title-generation prompt. -/
def titlePromptPre : String :=
  "Придумайте привлекательный и точный заголовок для статьи на тему '"

/-- Middle literal of the title-generation prompt. -/
def titlePromptMid : String := "', с учётом актуальных новостей:\n"

/-- The title-generation prompt of `generate_content`. -/
def titlePrompt (topic recent_news : String) : String :=
  titlePromptPre ++ topic ++ titlePromptMid ++ recent_news ++ "."

/-- Leading literal of the meta-description prompt. -/
def metaPromptPre : String := "Напишите мета-описание для статьи с заголовком: '"

/-- Trailing literal of the meta-description prompt. -/
def metaPromptSuf : String :=
  "'. Оно должно быть полным, информативным и содержать основные ключевые слова."

/-- The meta-description prompt of `generate_content`; it interpolates the
generated title only — neither the topic nor the news digest occurs in
it. -/
def metaPrompt (title : String) : String :=
  metaPromptPre ++ title ++ metaPromptSuf

/-- Leading literal of the article-body prompt. -/
def postPromptPre : String := "Напишите подробную статью на тему '"

/-- Middle literal of the article-body prompt. -/
def postPromptMid : String := "', используя последние новости:\n"

/-- Trailing literal of the article-body prompt (the eight numbered
requirements, concatenated from the adjacent string literals in the
source). -/
def postPromptSuf : String :=
  ". Статья должна быть:\n" ++
  "1. Информативной и логичной\n" ++
  "2. Не менее 1500 символов\n" ++
  "3. С четкой структурой с подзаголовками\n" ++
  "4. С анализом текущих трендов\n" ++
  "5. Со вступлением, основной частью и заключением\n" ++
  "6. С примерами из актуальных новостей\n" ++
  "7. Каждый абзац — не менее 3-4 предложений\n" ++
  "8. Текст — легким для восприятия"

/-- The article-body prompt of `generate_content`. -/
def postPrompt (topic recent_news : String) : String :=
  postPromptPre ++ topic ++ postPromptMid ++ recent_news ++ postPromptSuf

/-- The JSON object returned by `generate_content` on success. -/
structure GenerationResult where
  title : String
  meta_description : String
  post_content : String
deriving DecidableEq, Repr

/-- Observable outbound activity of one request: whether the news lookup
ran, and the generation prompts issued, in call order. -/
structure RunLog where
  newsCalled : Bool
  prompts : List String
deriving DecidableEq, Repr

/-- `generate_content` from `src/app.py`. `get_recent_news` runs before
the `try` block, so an `HTTPException` it raises propagates unchanged; any
exception inside the block (which wraps all three generation calls)
becomes a 500 with the generation-error detail. The calls run in the fixed
order title, meta-description, article body, and the first failure aborts
the rest. -/
def generate_content (oracle : GenOracle) (resp : NewsResponse) (topic : String) :
    RunLog × Except HTTPException GenerationResult :=
  match get_recent_news resp with
  | .error e => (⟨true, []⟩, .error e)
  | .ok recent_news =>
    let p1 := titlePrompt topic recent_news
    match completionText oracle p1 with
    | .error msg => (⟨true, [p1]⟩, .error ⟨500, "Ошибка генерации текста: " ++ msg⟩)
    | .ok title =>
      let p2 := metaPrompt title
      match completionText oracle p2 with
      | .error msg => (⟨true, [p1, p2]⟩, .error ⟨500, "Ошибка генерации текста: " ++ msg⟩)
      | .ok meta_description =>
        let p3 := postPrompt topic recent_news
        match completionText oracle p3 with
        | .error msg =>
            (⟨true, [p1, p2, p3]⟩, .error ⟨500, "Ошибка генерации текста: " ++ msg⟩)
        | .ok post_content =>
            (⟨true, [p1, p2, p3]⟩, .ok ⟨title, meta_description, post_content⟩)

/-- A reply of the `POST /generate-post` endpoint: the FastAPI validation
reply for a body whose `topic` field is missing, a reply produced from a
raised `HTTPException`, or the 200 reply carrying the generated object. -/
inductive ApiReply where
  | validationError
  | failure (status : Nat) (detail : String)
  | ok (result : GenerationResult)
deriving DecidableEq, Repr

/-- The HTTP status code of a reply (FastAPI maps a request-body
validation failure to 422). -/
def ApiReply.status : ApiReply → Nat
  | .validationError => 422
  | .failure s _ => s
  | .ok _ => 200

/-- `generate_post_api` from `src/app.py` together with FastAPI's
request-body validation of the pydantic model `Topic` (`topic: str`):
`body = none` models a request body with no `topic` field, rejected
before any handler code runs; a present string — the empty string
included — validates and is passed to `generate_content` verbatim. -/
def generate_post_api (oracle : GenOracle) (resp : NewsResponse) (body : Option String) :
    RunLog × ApiReply :=
  match body with
  | none => (⟨false, []⟩, .validationError)
  | some topic =>
    match generate_content oracle resp topic with
    | (log, .error e) => (log, .failure e.status e.detail)
    | (log, .ok r) => (log, .ok r)

/-- Test oracle: every generation call succeeds with the single choice
`"T"`. -/
def constOracle : GenOracle := fun _ => .completion [⟨"T"⟩]

/-- Test oracle: every generation call succeeds with a single choice whose
text is empty. -/
def emptyOracle : GenOracle := fun _ => .completion [⟨""⟩]

/-- Test oracle: every generation call raises. -/
def failOracle : GenOracle := fun _ => .failure "boom"

/-- A 200 news response whose article list is present and empty. -/
def emptyNewsResp : NewsResponse := .http 200 ⟨some []⟩

theorem extractTitles_of_map_some (l : List Article) (ts : List String)
    (h : l.map Article.title = ts.map some) : extractTitles l = some ts := by
  induction l generalizing ts with
  | nil => cases ts with
    | nil => rfl
    | cons t ts => simp at h
  | cons a rest ih =>
    cases ts with
    | nil => simp at h
    | cons t ts =>
      simp only [List.map_cons, List.cons.injEq] at h
      simp [extractTitles, h.1, ih ts h.2]

theorem extractTitles_of_missing (l : List Article)
    (h : ∃ a ∈ l, a.title = none) : extractTitles l = none := by
  induction l with
  | nil => simp at h
  | cons a rest ih =>
    rcases h with ⟨b, hb, hbt⟩
    rcases List.mem_cons.mp hb with hba | hbr
    · subst hba
      simp [extractTitles, hbt]
    · cases ha : a.title with
      | none => simp [extractTitles, ha]
      | some t => simp [extractTitles, ha, ih ⟨b, hbr, hbt⟩]

theorem get_recent_news_no_articles (status : Nat) (body : NewsBody)
    (hstat : status < 400) (hempty : body.news.getD [] = []) :
    get_recent_news (.http status body) = Except.ok noNewsSentinel := by
  have hrs : raiseForStatus status = false := by
    simp only [raiseForStatus, decide_eq_false_iff_not]
    omega
  simp [get_recent_news, hrs, hempty]

theorem news_data_infix_titlePrompt (topic recent_news : String) :
    recent_news.data <:+: (titlePrompt topic recent_news).data :=
  ⟨(titlePromptPre ++ topic ++ titlePromptMid).data, ".".data, by
    simp [titlePrompt, String.data_append]⟩

theorem news_data_infix_postPrompt (topic recent_news : String) :
    recent_news.data <:+: (postPrompt topic recent_news).data :=
  ⟨(postPromptPre ++ topic ++ postPromptMid).data, postPromptSuf.data, by
    simp [postPrompt, String.data_append]⟩

theorem title_data_infix_metaPrompt (title : String) :
    title.data <:+: (metaPrompt title).data :=
  ⟨metaPromptPre.data, metaPromptSuf.data, by
    simp [metaPrompt, String.data_append]⟩

theorem generate_content_newsCalled (oracle : GenOracle) (resp : NewsResponse)
    (topic : String) : (generate_content oracle resp topic).1.newsCalled = true := by
  cases h : get_recent_news resp with
  | error e => simp [generate_content, h]
  | ok d =>
    cases h1 : completionText oracle (titlePrompt topic d) with
    | error m => simp [generate_content, h, h1]
    | ok t =>
      cases h2 : completionText oracle (metaPrompt t) with
      | error m => simp [generate_content, h, h1, h2]
      | ok mt =>
        cases h3 : completionText oracle (postPrompt topic d) with
        | error m => simp [generate_content, h, h1, h2, h3]
        | ok pc => simp [generate_content, h, h1, h2, h3]

/-- Claim C8: a 2xx news response whose article list is present and empty
yields the fixed "no recent news found" sentinel digest, and no error is
raised. -/
theorem c8_empty_list_yields_sentinel (status : Nat)
    (h2xx : 200 ≤ status ∧ status < 300) :
    get_recent_news (.http status ⟨some []⟩) = Except.ok noNewsSentinel :=
  get_recent_news_no_articles status ⟨some []⟩ (by omega) rfl

/-- Witness for C8 at status 200. -/
theorem c8_witness :
    get_recent_news (.http 200 ⟨some []⟩) = Except.ok noNewsSentinel :=
  c8_empty_list_yields_sentinel 200 (by decide)

/-- Claim C9: a 2xx news response whose JSON body has no `"news"` key is
treated like an empty article list: the sentinel digest is returned and no
processing error is signalled. -/
theorem c9_missing_news_key_yields_sentinel (status : Nat)
    (h2xx : 200 ≤ status ∧ status < 300) :
    get_recent_news (.http status ⟨none⟩) = Except.ok noNewsSentinel :=
  get_recent_news_no_articles status ⟨none⟩ (by omega) rfl

/-- Witness for C9 at status 200. -/
theorem c9_witness :
    get_recent_news (.http 200 ⟨none⟩) = Except.ok noNewsSentinel :=
  c9_missing_news_key_yields_sentinel 200 (by decide)

/-- Claim C7: when a 2xx news response carries more than 5 articles, the
digest is exactly the title fields of the first 5 articles, in the order
received, joined with newline separators. -/
theorem c7_first_five_titles_joined (status : Nat) (articles : List Article)
    (titles : List String) (h2xx : 200 ≤ status ∧ status < 300)
    (hlen : 5 < articles.length)
    (ht : (articles.take 5).map Article.title = titles.map some) :
    get_recent_news (.http status ⟨some articles⟩)
      = Except.ok (String.intercalate "\n" titles) := by
  have hrs : raiseForStatus status = false := by
    simp only [raiseForStatus, decide_eq_false_iff_not]
    omega
  have hne : articles ≠ [] := by
    intro hnil
    rw [hnil] at hlen
    simp at hlen
  have hext : extractTitles (articles.take 5) = some titles :=
    extractTitles_of_map_some _ _ ht
  simp [get_recent_news, hrs, hne, hext]

/-- Witness for C7: six articles titled "a".."f" give the digest of the
first five titles. -/
theorem c7_witness :
    get_recent_news (.http 200 ⟨some [⟨some "a"⟩, ⟨some "b"⟩, ⟨some "c"⟩,
        ⟨some "d"⟩, ⟨some "e"⟩, ⟨some "f"⟩]⟩)
      = Except.ok (String.intercalate "\n" ["a", "b", "c", "d", "e"]) :=
  c7_first_five_titles_joined 200
    [⟨some "a"⟩, ⟨some "b"⟩, ⟨some "c"⟩, ⟨some "d"⟩, ⟨some "e"⟩, ⟨some "f"⟩]
    ["a", "b", "c", "d", "e"] (by decide) (by decide) (by decide)

/-- Claim C10: if a 2xx news response has a non-empty article list and one
of its first 5 articles lacks a `"title"` field, `get_recent_news` raises
the processing error mapped to 500 — the article is not skipped and no
partial digest is returned. -/
theorem c10_missing_title_is_processing_error (status : Nat)
    (articles : List Article) (h2xx : 200 ≤ status ∧ status < 300)
    (hne : articles ≠ [])
    (hmiss : ∃ a ∈ articles.take 5, a.title = none) :
    get_recent_news (.http status ⟨some articles⟩)
      = Except.error ⟨500, "Ошибка при обработке новостей: 'title'"⟩ := by
  have hrs : raiseForStatus status = false := by
    simp only [raiseForStatus, decide_eq_false_iff_not]
    omega
  have hext : extractTitles (articles.take 5) = none :=
    extractTitles_of_missing _ hmiss
  simp [get_recent_news, hrs, hne, hext]

/-- Witness for C10: a single article with no title field. -/
theorem c10_witness :
    get_recent_news (.http 200 ⟨some [⟨none⟩]⟩)
      = Except.error ⟨500, "Ошибка при обработке новостей: 'title'"⟩ :=
  c10_missing_title_is_processing_error 200 [⟨none⟩] (by decide) (by decide)
    ⟨⟨none⟩, by decide, rfl⟩

/-- Claim C1 is false on the code: with zero articles the digest is the
sentinel and the sentinel occurs in the title and article prompts, but the
meta-description prompt interpolates only the generated title, so the
sentinel does not occur in it. Concrete run: empty article list, generator
returning "T"; the second issued prompt does not contain the sentinel. -/
theorem c1_counterexample :
    get_recent_news emptyNewsResp = Except.ok noNewsSentinel ∧
    (generate_content constOracle emptyNewsResp "x").1.prompts.get? 1
      = some (metaPrompt "T") ∧
    ¬ noNewsSentinel.data <:+: (metaPrompt "T").data :=
  ⟨rfl, rfl, by set_option maxRecDepth 100000 in decide⟩

/-- Claim C1 (amended): for a 2xx news response with zero articles, the
digest equals the fixed sentinel string, and the sentinel appears verbatim
in the title-generation and article-generation prompts; the
meta-description prompt contains the generated title instead. -/
theorem c1_sentinel_in_title_and_post_prompts (oracle : GenOracle)
    (topic : String) (status : Nat) (body : NewsBody)
    (h2xx : 200 ≤ status ∧ status < 300)
    (hempty : body.news.getD [] = [])
    (p1 p2 p3 : String)
    (hp : (generate_content oracle (.http status body) topic).1.prompts
      = [p1, p2, p3]) :
    get_recent_news (.http status body) = Except.ok noNewsSentinel ∧
    noNewsSentinel.data <:+: p1.data ∧ noNewsSentinel.data <:+: p3.data := by
  have hd : get_recent_news (.http status body) = Except.ok noNewsSentinel :=
    get_recent_news_no_articles status body (by omega) hempty
  refine ⟨hd, ?_⟩
  cases h1 : completionText oracle (titlePrompt topic noNewsSentinel) with
  | error m =>
    simp [generate_content, hd, h1] at hp
  | ok t =>
    cases h2 : completionText oracle (metaPrompt t) with
    | error m =>
      simp [generate_content, hd, h1, h2] at hp
    | ok mt =>
      cases h3 : completionText oracle (postPrompt topic noNewsSentinel) with
      | error m =>
        simp only [generate_content, hd, h1, h2, h3] at hp
        simp only [List.cons.injEq, and_true] at hp
        obtain ⟨e1, e2, e3⟩ := hp
        rw [← e1, ← e3]
        exact ⟨news_data_infix_titlePrompt topic noNewsSentinel,
          news_data_infix_postPrompt topic noNewsSentinel⟩
      | ok pc =>
        simp only [generate_content, hd, h1, h2, h3] at hp
        simp only [List.cons.injEq, and_true] at hp
        obtain ⟨e1, e2, e3⟩ := hp
        rw [← e1, ← e3]
        exact ⟨news_data_infix_titlePrompt topic noNewsSentinel,
          news_data_infix_postPrompt topic noNewsSentinel⟩

/-- Witness for the amended C1 at a concrete run. -/
theorem c1_witness :
    get_recent_news (.http 200 ⟨some []⟩) = Except.ok noNewsSentinel ∧
    noNewsSentinel.data <:+: (titlePrompt "x" noNewsSentinel).data ∧
    noNewsSentinel.data <:+: (postPrompt "x" noNewsSentinel).data :=
  c1_sentinel_in_title_and_post_prompts constOracle "x" 200 ⟨some []⟩
    (by decide) rfl (titlePrompt "x" noNewsSentinel) (metaPrompt "T")
    (postPrompt "x" noNewsSentinel) rfl

/-- Claim C6: in every successful pipeline run the prompts are issued in
the order title, meta-description, article, and the meta-description
prompt contains the literal generated title text. -/
theorem c6_meta_prompt_contains_title (oracle : GenOracle)
    (resp : NewsResponse) (topic d : String) (log : RunLog)
    (r : GenerationResult)
    (hd : get_recent_news resp = Except.ok d)
    (h : generate_content oracle resp topic = (log, Except.ok r)) :
    log.prompts = [titlePrompt topic d, metaPrompt r.title, postPrompt topic d] ∧
    r.title.data <:+: (metaPrompt r.title).data := by
  cases h1 : completionText oracle (titlePrompt topic d) with
  | error m => simp [generate_content, hd, h1] at h
  | ok t =>
    cases h2 : completionText oracle (metaPrompt t) with
    | error m => simp [generate_content, hd, h1, h2] at h
    | ok mt =>
      cases h3 : completionText oracle (postPrompt topic d) with
      | error m => simp [generate_content, hd, h1, h2, h3] at h
      | ok pc =>
        simp only [generate_content, hd, h1, h2, h3, Prod.mk.injEq] at h
        obtain ⟨hlog, hr⟩ := h
        have hrr : r = ⟨t, mt, pc⟩ := by
          cases hr
          rfl
        subst hrr
        subst hlog
        exact ⟨rfl, title_data_infix_metaPrompt t⟩

/-- Witness for C6 at a concrete successful run. -/
theorem c6_witness :
    (RunLog.mk true [titlePrompt "x" noNewsSentinel, metaPrompt "T",
        postPrompt "x" noNewsSentinel]).prompts
      = [titlePrompt "x" noNewsSentinel,
         metaPrompt (GenerationResult.mk "T" "T" "T").title,
         postPrompt "x" noNewsSentinel] ∧
    (GenerationResult.mk "T" "T" "T").title.data
      <:+: (metaPrompt (GenerationResult.mk "T" "T" "T").title).data :=
  c6_meta_prompt_contains_title constOracle emptyNewsResp "x" noNewsSentinel
    (RunLog.mk true [titlePrompt "x" noNewsSentinel, metaPrompt "T",
      postPrompt "x" noNewsSentinel])
    (GenerationResult.mk "T" "T" "T") rfl rfl

/-- Claim C5: when the news lookup has succeeded, a failure of any of the
three generation calls makes the whole request fail with HTTP 500, no
later generation call in the title → meta-description → article order is
attempted (the prompt log stops at the failing call), and no partial
result is returned. -/
theorem c5_generation_failure_aborts (oracle : GenOracle)
    (resp : NewsResponse) (topic d : String)
    (hd : get_recent_news resp = Except.ok d) :
    (∀ m, completionText oracle (titlePrompt topic d) = Except.error m →
      generate_post_api oracle resp (some topic)
        = (⟨true, [titlePrompt topic d]⟩,
           ApiReply.failure 500 ("Ошибка генерации текста: " ++ m))) ∧
    (∀ t m, completionText oracle (titlePrompt topic d) = Except.ok t →
      completionText oracle (metaPrompt t) = Except.error m →
      generate_post_api oracle resp (some topic)
        = (⟨true, [titlePrompt topic d, metaPrompt t]⟩,
           ApiReply.failure 500 ("Ошибка генерации текста: " ++ m))) ∧
    (∀ t mt m, completionText oracle (titlePrompt topic d) = Except.ok t →
      completionText oracle (metaPrompt t) = Except.ok mt →
      completionText oracle (postPrompt topic d) = Except.error m →
      generate_post_api oracle resp (some topic)
        = (⟨true, [titlePrompt topic d, metaPrompt t, postPrompt topic d]⟩,
           ApiReply.failure 500 ("Ошибка генерации текста: " ++ m))) := by
  refine ⟨?_, ?_, ?_⟩
  · intro m h1
    simp [generate_post_api, generate_content, hd, h1]
  · intro t m h1 h2
    simp [generate_post_api, generate_content, hd, h1, h2]
  · intro t mt m h1 h2 h3
    simp [generate_post_api, generate_content, hd, h1, h2, h3]

/-- Witness for C5: the first generation call fails on a concrete run. -/
theorem c5_witness :
    generate_post_api failOracle emptyNewsResp (some "x")
      = (⟨true, [titlePrompt "x" noNewsSentinel]⟩,
         ApiReply.failure 500 ("Ошибка генерации текста: " ++ "boom")) :=
  (c5_generation_failure_aborts failOracle emptyNewsResp "x" noNewsSentinel
    rfl).1 "boom" rfl

/-- Claim C2 is false on the code: nothing forces the generated texts to
be non-empty. Concrete run: non-empty topic, news lookup succeeds, every
generation call returns one choice with empty text; the call succeeds
(status 200) yet all three fields are empty strings. -/
theorem c2_counterexample :
    ("x" : String) ≠ "" ∧
    generate_post_api emptyOracle emptyNewsResp (some "x")
      = (⟨true, [titlePrompt "x" noNewsSentinel, metaPrompt "",
           postPrompt "x" noNewsSentinel]⟩,
         ApiReply.ok ⟨"", "", ""⟩) ∧
    (ApiReply.ok ⟨"", "", ""⟩).status = 200 :=
  ⟨by decide, rfl, rfl⟩

/-- Claim C2 (amended): each field of a successful reply is the stripped
first-candidate text of its generation call, so for every non-empty topic
the three fields are non-empty provided every successful generation call
yields non-empty stripped text. -/
theorem c2_fields_nonempty_given_nonempty_generation (oracle : GenOracle)
    (resp : NewsResponse) (topic : String) (log : RunLog)
    (r : GenerationResult) (hne : topic ≠ "")
    (H : ∀ p s, completionText oracle p = Except.ok s → s ≠ "")
    (h : generate_post_api oracle resp (some topic) = (log, ApiReply.ok r)) :
    r.title ≠ "" ∧ r.meta_description ≠ "" ∧ r.post_content ≠ "" := by
  cases hd : get_recent_news resp with
  | error e => simp [generate_post_api, generate_content, hd] at h
  | ok d =>
    cases h1 : completionText oracle (titlePrompt topic d) with
    | error m => simp [generate_post_api, generate_content, hd, h1] at h
    | ok t =>
      cases h2 : completionText oracle (metaPrompt t) with
      | error m => simp [generate_post_api, generate_content, hd, h1, h2] at h
      | ok mt =>
        cases h3 : completionText oracle (postPrompt topic d) with
        | error m =>
          simp [generate_post_api, generate_content, hd, h1, h2, h3] at h
        | ok pc =>
          simp only [generate_post_api, generate_content, hd, h1, h2, h3,
            Prod.mk.injEq] at h
          obtain ⟨-, hr⟩ := h
          have hrr : r = ⟨t, mt, pc⟩ := by
            cases hr
            rfl
          subst hrr
          exact ⟨H _ _ h1, H _ _ h2, H _ _ h3⟩

/-- Witness for the amended C2 at a concrete run. -/
theorem c2_witness :
    (GenerationResult.mk "T" "T" "T").title ≠ "" ∧
    (GenerationResult.mk "T" "T" "T").meta_description ≠ "" ∧
    (GenerationResult.mk "T" "T" "T").post_content ≠ "" :=
  c2_fields_nonempty_given_nonempty_generation constOracle emptyNewsResp "x"
    (RunLog.mk true [titlePrompt "x" noNewsSentinel, metaPrompt "T",
      postPrompt "x" noNewsSentinel])
    (GenerationResult.mk "T" "T" "T") (by decide)
    (by
      intro p s hs
      simp only [completionText, constOracle] at hs
      cases hs
      decide)
    rfl

/-- Claim C3 is false on the code: the pydantic model `Topic` declares
`topic: str` with no non-emptiness constraint, so a request body carrying
an empty topic string passes validation and the whole pipeline runs.
Concrete run: topic `""`, empty article list, generator returning "T" —
the reply is a 200 success, not a validation error. -/
theorem c3_counterexample :
    generate_post_api constOracle emptyNewsResp (some "")
      = (⟨true, [titlePrompt "" noNewsSentinel, metaPrompt "T",
           postPrompt "" noNewsSentinel]⟩,
         ApiReply.ok ⟨"T", "T", "T"⟩) ∧
    (ApiReply.ok (GenerationResult.mk "T" "T" "T")).status = 200 :=
  ⟨rfl, rfl⟩

/-- Claim C3 (amended): only a request body with no `topic` field fails
framework validation — mapped to HTTP 422 — and then neither the news
lookup nor any generation call runs; a present topic string, the empty
string included, passes validation and the pipeline runs. -/
theorem c3_missing_topic_validation_only (oracle : GenOracle)
    (resp : NewsResponse) :
    (generate_post_api oracle resp none
        = (⟨false, []⟩, ApiReply.validationError) ∧
      ApiReply.validationError.status = 422) ∧
    ∀ topic : String,
      (generate_post_api oracle resp (some topic)).1.newsCalled = true := by
  refine ⟨⟨rfl, rfl⟩, ?_⟩
  intro topic
  have hnc := generate_content_newsCalled oracle resp topic
  rcases hgc : generate_content oracle resp topic with ⟨log, out⟩
  rw [hgc] at hnc
  cases out with
  | error e =>
    simp only [generate_post_api, hgc]
    exact hnc
  | ok r =>
    simp only [generate_post_api, hgc]
    exact hnc

/-- Claim C4 is false on the code as stated: `raise_for_status()` raises
only for 4xx/5xx statuses, so a non-2xx status such as 304 with a parsable
body does not produce a 502 — here the pipeline runs to a 200 success and
all three generation calls are attempted. -/
theorem c4_counterexample :
    ¬ (200 ≤ 304 ∧ 304 < 300) ∧
    generate_post_api constOracle (.http 304 ⟨some []⟩) (some "x")
      = (⟨true, [titlePrompt "x" noNewsSentinel, metaPrompt "T",
           postPrompt "x" noNewsSentinel]⟩,
         ApiReply.ok ⟨"T", "T", "T"⟩) :=
  ⟨by decide, rfl⟩

/-- Claim C4 (amended): if the news API call fails with a transport error
or returns a 4xx/5xx status, the request fails with HTTP 502 and no
generation call is attempted. -/
theorem c4_upstream_failure_502 (oracle : GenOracle) (topic : String) :
    (∀ msg, generate_post_api oracle (.transportError msg) (some topic)
        = (⟨true, []⟩,
           ApiReply.failure 502 ("Ошибка запроса к Currents API: " ++ msg))) ∧
    (∀ status body, 400 ≤ status → status < 600 →
      (generate_post_api oracle (.http status body) (some topic)).1.prompts = []
        ∧ (generate_post_api oracle (.http status body) (some topic)).2.status
            = 502) := by
  constructor
  · intro msg
    rfl
  · intro status body h4 h6
    have hrs : raiseForStatus status = true := by
      simp only [raiseForStatus, decide_eq_true_eq]
      omega
    have hgr : get_recent_news (.http status body)
        = Except.error ⟨502, "Ошибка запроса к Currents API: " ++ Nat.repr status⟩ := by
      simp [get_recent_news, hrs]
    constructor <;>
      simp [generate_post_api, generate_content, hgr, ApiReply.status]

/-- Witness for the amended C4 at status 404. -/
theorem c4_witness :
    (generate_post_api constOracle (.http 404 ⟨some []⟩) (some "x")).1.prompts
        = [] ∧
    (generate_post_api constOracle (.http 404 ⟨some []⟩) (some "x")).2.status
        = 502 :=
  (c4_upstream_failure_502 constOracle "x").2 404 ⟨some []⟩ (by decide)
    (by decide)
